import Mathlib

/-!
Verification of the PSD layer-export pipeline.

The repository contains two variants of the same tool:

* variant 1, file src/psd.py (classes LayerProcessor, PSDWebExtractor);
* variant 2, file src/psd增强-AI版.py (the enhanced, AI-friendly build).

Both variants share their layer classifier (_get_layer_type), filename
sanitizer (_sanitize_filename), bounding-box clamping and record creation
(_create_layer_result), and the rasterization helpers
(rasterize_text_layer, export_layer_image), which are textually identical
in the two files; those are defined once below.  The per-layer dispatch
loop (extract_all_layers) differs between the variants and is embedded
separately as extract_all_layers1 and extract_all_layers2.

Modelling conventions:

* a psd-tools layer handle is a record of the attributes the code reads;
  an attribute that may be absent (getattr / hasattr guards) is an Option;
* layer.topil() may raise, return None, or return a PIL image, so it is
  embedded as Except String (Option PILImage); an exception raised by the
  layer.bbox property is the representative of an exception escaping
  _create_layer_result into the per-layer except handler, so bbox is
  embedded as Except String BBox;
* a PIL image is reduced to the attributes the code observes: its mode
  string and whether convert('RGBA') or save(...) raises on it.  The
  inner try of _create_layer_result catches those errors and the record
  is still returned; the model records the success of the file write in
  the savedOk field of the emitted record;
* one print statement per loop iteration reports the fate of the layer;
  the model mirrors those as the Outcome1 / Outcome2 inductive types so
  that distinctness of reported outcomes is expressible.
-/

/-- Bounding box of a layer, the 4-tuple layer.bbox = (left, top, right, bottom). -/
structure BBox where
  left : Int
  top : Int
  right : Int
  bottom : Int
deriving DecidableEq

/-- The attributes of a PIL image observed by the code: its mode, and
whether convert('RGBA') or save(...) raises on this handle. -/
structure PILImage where
  mode : String
  convertRaises : Bool
  saveRaises : Bool
deriving DecidableEq

/-- A psd-tools layer handle, reduced to the attributes the code reads.
Option models a getattr / hasattr guard; Except models a property access
that may raise. -/
structure Layer where
  name : Option String
  isVisible : Option Bool
  kind : Option String
  smartObject : Bool
  hasPixels : Bool
  text : Option String
  topil : Except String (Option PILImage)
  bboxRes : Except String BBox
  opacity : Option Nat
  blendMode : Option String

/-- Run configuration: the export_invisible and expand_smart_objects
flags of the PSDWebExtractor constructor. -/
structure Config where
  exportInvisible : Bool
  expandSmartObjects : Bool
deriving DecidableEq

/-- Effective visibility, layer.is_visible() if hasattr(layer, 'is_visible') else True. -/
def effVisible (l : Layer) : Bool :=
  l.isVisible.getD true

/-- Test whether the pattern list occurs at the head of the second list. -/
def headMatches : List Char → List Char → Bool
  | [], _ => true
  | _ :: _, [] => false
  | p :: ps, c :: cs => p = c && headMatches ps cs

/-- Test whether the pattern list occurs anywhere inside the second list,
the model of the Python substring test pat in s. -/
def containsSeq (pat : List Char) : List Char → Bool
  | [] => headMatches pat []
  | c :: cs => headMatches pat (c :: cs) || containsSeq pat cs

/-- Lower-case a string character by character, the model of str.lower()
on the ASCII kind strings the code compares. -/
def lowerStr (s : String) : String :=
  String.mk (s.data.map Char.toLower)

/-- Adjustment test of _get_layer_type: the substring check of
'adjustment' inside str(layer.kind).lower(), false when the kind
attribute is absent. -/
def kindAdjustment (l : Layer) : Bool :=
  match l.kind with
  | some k => containsSeq ("adjustment".data) ((lowerStr k).data)
  | none => false

/-- Classifier PSDWebExtractor._get_layer_type, identical in both source
files: first-match-wins chain over text, smart object, adjustment, pixel,
with 'other' as the default. -/
def getLayerType (l : Layer) : String :=
  if l.kind = some "type" then "text"
  else if l.smartObject then "smart_object"
  else if kindAdjustment l then "adjustment"
  else if l.hasPixels then "pixel"
  else "other"

/-- Characters removed by the regex character class of _sanitize_filename. -/
def illegalChar (c : Char) : Bool :=
  c = '<' || c = '>' || c = ':' || c = '"' || c = '/' || c = '\\' ||
  c = '|' || c = '?' || c = '*'

/-- ASCII whitespace, the model of the characters str.strip() removes. -/
def pyWhitespace (c : Char) : Bool :=
  c = ' ' || c = '\t' || c = '\n' || c = '\r' || c = '\x0b' || c = '\x0c'

/-- Remove the characters satisfying p from both ends of the list, the
model of str.strip(chars). -/
def stripBy (p : Char → Bool) (cs : List Char) : List Char :=
  ((cs.dropWhile p).reverse.dropWhile p).reverse

/-- Sanitizer PSDWebExtractor._sanitize_filename, identical in both
source files: re.sub replaces each character of the class with an
underscore, then .strip() and .strip('.') trim whitespace and dots from
both ends, then the result is cut to 50 characters. -/
def sanitize_filename (name : String) : String :=
  let replaced := name.data.map (fun c => if illegalChar c then '_' else c)
  let trimmed := stripBy (fun c => c = '.') (stripBy pyWhitespace replaced)
  String.mk (trimmed.take 50)

/-- Zero-padded decimal rendering of the export index, the Python format
f-string with format spec 03d. -/
def pad3 (n : Nat) : String :=
  if n < 1000 then
    String.mk [Nat.digitChar (n / 100), Nat.digitChar (n / 10 % 10), Nat.digitChar (n % 10)]
  else toString n

/-- Filename built by _create_layer_result from the export index and the
cleaned layer name. -/
def layerFilename (index : Nat) (cleanName : String) : String :=
  pad3 index ++ "_" ++ cleanName ++ ".png"

/-- One emitted layer record, the dictionary returned by
_create_layer_result.  The position block is flattened into x, y, width,
height; savedOk tells whether the PNG file write inside the inner try
succeeded.  Variant 2 adds text_info and layer_bbox entries to the same
dictionary; no claim observes them and they are not modelled. -/
structure LayerRecord where
  index : Nat
  name : String
  layerType : String
  filename : String
  relativePath : String
  x : Int
  y : Int
  width : Int
  height : Int
  visible : Bool
  opacity : Nat
  blendMode : String
  savedOk : Bool
deriving DecidableEq

/-- Record construction once layer.bbox has been read successfully. -/
def buildRecord (l : Layer) (index : Nat) (image : PILImage) (layerType : String)
    (bb : BBox) : LayerRecord :=
  let layerName := l.name.getD ("layer_" ++ toString index)
  let cleanName := sanitize_filename layerName
  let filename := layerFilename index cleanName
  { index := index
    name := layerName
    layerType := layerType
    filename := filename
    relativePath := "images/" ++ filename
    x := bb.left
    y := bb.top
    width := max (bb.right - bb.left) 1
    height := max (bb.bottom - bb.top) 1
    visible := effVisible l
    opacity := l.opacity.getD 100
    blendMode := l.blendMode.getD "normal"
    savedOk := if image.mode ≠ "RGBA"
               then !image.convertRaises && !image.saveRaises
               else !image.saveRaises }

/-- PSDWebExtractor._create_layer_result, identical in both source files
in every aspect a claim observes: reading layer.bbox may raise (the error
propagates to the per-layer except handler of the loop), the width and
height are clamped with max(..., 1), and the inner try around the mode
conversion and the PNG save catches any error there, so the record is
returned even when the file write fails. -/
def create_layer_result (l : Layer) (index : Nat) (image : PILImage)
    (layerType : String) : Except String LayerRecord :=
  match l.bboxRes with
  | .error e => .error e
  | .ok bb => .ok (buildRecord l index image layerType bb)

/-- The fallback image Image.new('RGBA', ...) drawn by the manual branch
of rasterize_text_layer: a fresh in-memory RGBA image on which neither
conversion nor saving raises. -/
def mkTextImage : PILImage :=
  { mode := "RGBA", convertRaises := false, saveRaises := false }

/-- LayerProcessor.rasterize_text_layer, identical in both source files.
The whole body is wrapped in try/except returning None, so this function
never raises: a raising topil() is caught immediately (the manual
fallback is not reached), a None topil() falls through to the manual
text drawing, which needs a nonempty text attribute and a readable bbox. -/
def rasterize_text_layer (l : Layer) : Option PILImage :=
  match l.topil with
  | .error _ => none
  | .ok (some img) => some img
  | .ok none =>
    match l.text with
    | none => none
    | some t =>
      if t = "" then none
      else
        match l.bboxRes with
        | .error _ => none
        | .ok _ => some mkTextImage

/-- LayerProcessor.export_layer_image, identical in both source files:
topil() under a try/except returning None, so it never raises. -/
def export_layer_image (l : Layer) : Option PILImage :=
  match l.topil with
  | .ok (some img) => some img
  | _ => none

/-- Per-iteration outcome of the variant 1 loop (src/psd.py), one
constructor per distinct print statement of extract_all_layers. -/
inductive Outcome1 where
  | skipInvisible
  | okText
  | skipTextRaster
  | smartNotSupported
  | okSmart
  | skipSmart
  | skipAdjustment
  | okPixel
  | skipPixel
  | okOther
  | skipOther
  | errCaught (msg : String)
deriving DecidableEq

/-- The body of one iteration of the variant 1 loop: the visibility gate,
then the try block dispatching on _get_layer_type; the except handler is
the errCaught outcome.  Returns the record appended (if any) together
with the reported outcome. -/
def processLayer1 (cfg : Config) (l : Layer) (layerIndex : Nat) :
    Option LayerRecord × Outcome1 :=
  if !cfg.exportInvisible && !effVisible l then (none, .skipInvisible)
  else
    if getLayerType l = "text" then
      match rasterize_text_layer l with
      | some img =>
        match create_layer_result l layerIndex img "text" with
        | .ok r => (some r, .okText)
        | .error e => (none, .errCaught e)
      | none => (none, .skipTextRaster)
    else if getLayerType l = "smart_object" then
      if cfg.expandSmartObjects then (none, .smartNotSupported)
      else
        match export_layer_image l with
        | some img =>
          match create_layer_result l layerIndex img "smart_object" with
          | .ok r => (some r, .okSmart)
          | .error e => (none, .errCaught e)
        | none => (none, .skipSmart)
    else if getLayerType l = "adjustment" then (none, .skipAdjustment)
    else if getLayerType l = "pixel" then
      match export_layer_image l with
      | some img =>
        match create_layer_result l layerIndex img "pixel" with
        | .ok r => (some r, .okPixel)
        | .error e => (none, .errCaught e)
      | none => (none, .skipPixel)
    else
      match export_layer_image l with
      | some img =>
        match create_layer_result l layerIndex img "other" with
        | .ok r => (some r, .okOther)
        | .error e => (none, .errCaught e)
      | none => (none, .skipOther)

/-- Loop state of variant 1: results, exported_count, skipped_count and
layer_index (the next export index, incremented only on export). -/
structure RunState1 where
  results : List LayerRecord
  exported : Nat
  skipped : Nat
  layerIndex : Nat
deriving DecidableEq

/-- One iteration of the variant 1 loop folded over the state. -/
def step1 (cfg : Config) (st : RunState1) (l : Layer) : RunState1 :=
  match processLayer1 cfg l st.layerIndex with
  | (some r, _) =>
    { results := st.results ++ [r]
      exported := st.exported + 1
      skipped := st.skipped
      layerIndex := st.layerIndex + 1 }
  | (none, _) => { st with skipped := st.skipped + 1 }

/-- PSDWebExtractor.extract_all_layers of variant 1 (src/psd.py), the
loop over self.all_layers. -/
def extract_all_layers1 (cfg : Config) (layers : List Layer) : RunState1 :=
  layers.foldl (step1 cfg) ⟨[], 0, 0, 0⟩

/-- Per-iteration outcome of the variant 2 loop (src/psd增强-AI版.py).
The invisible skip prints nothing, every other unexported layer gets the
same generic skip line, an export prints the type, and the except handler
prints the error. -/
inductive Outcome2 where
  | skipInvisible
  | exported (lt : String)
  | skipGeneric
  | errCaught (msg : String)
deriving DecidableEq

/-- The body of one iteration of the variant 2 loop.  The curLen argument
is len(results), passed as the export index to _create_layer_result.
Variant 2 dispatches only on text, smart_object and pixel; every other
classification, including adjustment, falls into the final else branch
and is exported as 'other' when an image is produced. -/
def processLayer2 (cfg : Config) (l : Layer) (curLen : Nat) :
    Option LayerRecord × Outcome2 :=
  if !cfg.exportInvisible && !effVisible l then (none, .skipInvisible)
  else
    if getLayerType l = "text" then
      match rasterize_text_layer l with
      | some img =>
        match create_layer_result l curLen img "text" with
        | .ok r => (some r, .exported "text")
        | .error e => (none, .errCaught e)
      | none => (none, .skipGeneric)
    else if getLayerType l = "smart_object" then
      if !cfg.expandSmartObjects then
        match export_layer_image l with
        | some img =>
          match create_layer_result l curLen img "smart_object" with
          | .ok r => (some r, .exported "smart_object")
          | .error e => (none, .errCaught e)
        | none => (none, .skipGeneric)
      else (none, .skipGeneric)
    else if getLayerType l = "pixel" then
      match export_layer_image l with
      | some img =>
        match create_layer_result l curLen img "pixel" with
        | .ok r => (some r, .exported "pixel")
        | .error e => (none, .errCaught e)
      | none => (none, .skipGeneric)
    else
      match export_layer_image l with
      | some img =>
        match create_layer_result l curLen img "other" with
        | .ok r => (some r, .exported "other")
        | .error e => (none, .errCaught e)
      | none => (none, .skipGeneric)

/-- Loop state of variant 2: results plus the layer_stats dictionary. -/
structure RunState2 where
  results : List LayerRecord
  total : Nat
  exported : Nat
  textExported : Nat
  pixelExported : Nat
  smartExported : Nat
  otherExported : Nat
  skipped : Nat
deriving DecidableEq

/-- One iteration of the variant 2 loop: total is incremented for every
layer, the per-type counter for an exported record matches the type
string stored in it (the counter increments sit in the same branches that
build the record). -/
def step2 (cfg : Config) (st : RunState2) (l : Layer) : RunState2 :=
  let st1 := { st with total := st.total + 1 }
  match processLayer2 cfg l st1.results.length with
  | (some r, _) =>
    let st2 := { st1 with results := st1.results ++ [r], exported := st1.exported + 1 }
    if r.layerType = "text" then { st2 with textExported := st2.textExported + 1 }
    else if r.layerType = "smart_object" then { st2 with smartExported := st2.smartExported + 1 }
    else if r.layerType = "pixel" then { st2 with pixelExported := st2.pixelExported + 1 }
    else { st2 with otherExported := st2.otherExported + 1 }
  | (none, _) => { st1 with skipped := st1.skipped + 1 }

/-- PSDWebExtractor.extract_all_layers of variant 2 (src/psd增强-AI版.py). -/
def extract_all_layers2 (cfg : Config) (layers : List Layer) : RunState2 :=
  layers.foldl (step2 cfg) ⟨[], 0, 0, 0, 0, 0, 0, 0⟩

/-- Fold invariance: a property preserved by every step holds for the
final state of the fold. -/
theorem foldl_inv {σ α : Type} (f : σ → α → σ) (P : σ → Prop)
    (hstep : ∀ s a, P s → P (f s a)) (ls : List α) :
    ∀ s : σ, P s → P (ls.foldl f s) := by
  induction ls with
  | nil => intro s h; exact h
  | cons a ls ih => intro s h; exact ih (f s a) (hstep s a h)

/-- Successful record creation is exactly a successful bbox read followed
by buildRecord. -/
theorem create_layer_result_ok {l : Layer} {idx : Nat} {img : PILImage}
    {t : String} {r : LayerRecord}
    (h : create_layer_result l idx img t = Except.ok r) :
    ∃ bb, l.bboxRes = Except.ok bb ∧ r = buildRecord l idx img t bb := by
  unfold create_layer_result at h
  split at h
  · exact absurd h (by simp)
  · next bb heq => exact ⟨bb, heq, by injection h with h2; exact h2.symm⟩

/-- Record returned by variant 1 processing comes from create_layer_result
at the given export index. -/
theorem processLayer1_fst_some {cfg : Config} {l : Layer} {idx : Nat}
    {r : LayerRecord} (h : (processLayer1 cfg l idx).1 = some r) :
    ∃ img t, create_layer_result l idx img t = Except.ok r := by
  unfold processLayer1 at h
  repeat' split at h
  all_goals first
    | (simp at h; done)
    | (simp at h; subst h; exact ⟨_, _, by assumption⟩)

/-- Record returned by variant 2 processing comes from create_layer_result
at the given export index. -/
theorem processLayer2_fst_some {cfg : Config} {l : Layer} {idx : Nat}
    {r : LayerRecord} (h : (processLayer2 cfg l idx).1 = some r) :
    ∃ img t, create_layer_result l idx img t = Except.ok r := by
  unfold processLayer2 at h
  repeat' split at h
  all_goals first
    | (simp at h; done)
    | (simp at h; subst h; exact ⟨_, _, by assumption⟩)

/-- Projections of a successfully created record: the export index and
type string are the arguments, the visible flag is the layer visibility,
and both clamped dimensions are at least 1. -/
theorem create_ok_props {l : Layer} {idx : Nat} {img : PILImage}
    {t : String} {r : LayerRecord}
    (h : create_layer_result l idx img t = Except.ok r) :
    r.index = idx ∧ r.layerType = t ∧ r.visible = effVisible l ∧
    (1 : Int) ≤ r.width ∧ (1 : Int) ≤ r.height := by
  obtain ⟨bb, _, rfl⟩ := create_layer_result_ok h
  exact ⟨rfl, rfl, rfl, le_max_right _ _, le_max_right _ _⟩

/-- Characterization of one variant 1 step by the processing result. -/
theorem step1_eq (cfg : Config) (st : RunState1) (l : Layer) :
    step1 cfg st l =
      match (processLayer1 cfg l st.layerIndex).1 with
      | some r => ⟨st.results ++ [r], st.exported + 1, st.skipped, st.layerIndex + 1⟩
      | none => { st with skipped := st.skipped + 1 } := by
  unfold step1
  rcases processLayer1 cfg l st.layerIndex with ⟨_ | r, o⟩ <;> rfl

/-- A layer that produces a record has passed the visibility gate. -/
theorem processLayer1_gate {cfg : Config} {l : Layer} {idx : Nat}
    {r : LayerRecord} (h : (processLayer1 cfg l idx).1 = some r) :
    (!cfg.exportInvisible && !effVisible l) = false := by
  by_cases hg : (!cfg.exportInvisible && !effVisible l) = true
  · unfold processLayer1 at h
    rw [if_pos hg] at h
    simp at h
  · simpa using hg

/-- A layer that produces a record in variant 2 has passed the
visibility gate. -/
theorem processLayer2_gate {cfg : Config} {l : Layer} {idx : Nat}
    {r : LayerRecord} (h : (processLayer2 cfg l idx).1 = some r) :
    (!cfg.exportInvisible && !effVisible l) = false := by
  by_cases hg : (!cfg.exportInvisible && !effVisible l) = true
  · unfold processLayer2 at h
    rw [if_pos hg] at h
    simp at h
  · simpa using hg

/-- An invisible layer under export_invisible = false is dispatched to
the invisible skip, ignoring every other attribute. -/
theorem processLayer1_invisible {cfg : Config} {l : Layer} (idx : Nat)
    (h1 : cfg.exportInvisible = false) (h2 : effVisible l = false) :
    processLayer1 cfg l idx = (none, Outcome1.skipInvisible) := by
  unfold processLayer1
  rw [if_pos (by simp [h1, h2])]

/-- An invisible layer under export_invisible = false is dispatched to
the silent invisible skip in variant 2. -/
theorem processLayer2_invisible {cfg : Config} {l : Layer} (idx : Nat)
    (h1 : cfg.exportInvisible = false) (h2 : effVisible l = false) :
    processLayer2 cfg l idx = (none, Outcome2.skipInvisible) := by
  unfold processLayer2
  rw [if_pos (by simp [h1, h2])]

/-- Loop invariant of variant 1: layer_index and exported_count both
track the number of emitted records, and the record at position k
carries export index k. -/
def Inv1 (st : RunState1) : Prop :=
  st.layerIndex = st.results.length ∧ st.exported = st.results.length ∧
  ∀ k (hk : k < st.results.length), (st.results.get ⟨k, hk⟩).index = k

/-- One variant 1 step preserves the density invariant. -/
theorem step1_inv (cfg : Config) :
    ∀ (st : RunState1) (l : Layer), Inv1 st → Inv1 (step1 cfg st l) := by
  intro st l ⟨h1, h2, h3⟩
  rw [step1_eq]
  cases hp : (processLayer1 cfg l st.layerIndex).1 with
  | none => exact ⟨h1, h2, h3⟩
  | some r =>
    obtain ⟨img, t, hc⟩ := processLayer1_fst_some hp
    have hidx : r.index = st.layerIndex := (create_ok_props hc).1
    refine ⟨by simp [h1], by simp [h2], ?_⟩
    intro k hk
    simp only [List.length_append, List.length_singleton] at hk
    by_cases hlt : k < st.results.length
    · rw [List.get_append _ hlt]
      exact h3 k hlt
    · have hkeq : k = st.results.length := by omega
      subst hkeq
      have : (st.results ++ [r]).get ⟨st.results.length, by simp⟩ = r := by
        simp
      rw [this, hidx, h1]

/-- Density of export indices for a variant 1 run. -/
theorem dense1 (cfg : Config) (layers : List Layer) :
    (extract_all_layers1 cfg layers).layerIndex =
      (extract_all_layers1 cfg layers).results.length ∧
    (extract_all_layers1 cfg layers).exported =
      (extract_all_layers1 cfg layers).results.length ∧
    ∀ k (hk : k < (extract_all_layers1 cfg layers).results.length),
      ((extract_all_layers1 cfg layers).results.get ⟨k, hk⟩).index = k :=
  foldl_inv (step1 cfg) Inv1 (step1_inv cfg) layers _
    ⟨rfl, rfl, by intro k hk; simp at hk⟩

/-- Loop invariant of variant 2: exported tracks len(results), and the
record at position k carries export index k. -/
def Inv2 (st : RunState2) : Prop :=
  st.exported = st.results.length ∧
  ∀ k (hk : k < st.results.length), (st.results.get ⟨k, hk⟩).index = k

/-- Characterization of one variant 2 step by the processing result. -/
theorem step2_eq (cfg : Config) (st : RunState2) (l : Layer) :
    step2 cfg st l =
      match (processLayer2 cfg l st.results.length).1 with
      | some r =>
        if r.layerType = "text" then
          ⟨st.results ++ [r], st.total + 1, st.exported + 1, st.textExported + 1,
           st.pixelExported, st.smartExported, st.otherExported, st.skipped⟩
        else if r.layerType = "smart_object" then
          ⟨st.results ++ [r], st.total + 1, st.exported + 1, st.textExported,
           st.pixelExported, st.smartExported + 1, st.otherExported, st.skipped⟩
        else if r.layerType = "pixel" then
          ⟨st.results ++ [r], st.total + 1, st.exported + 1, st.textExported,
           st.pixelExported + 1, st.smartExported, st.otherExported, st.skipped⟩
        else
          ⟨st.results ++ [r], st.total + 1, st.exported + 1, st.textExported,
           st.pixelExported, st.smartExported, st.otherExported + 1, st.skipped⟩
      | none => { st with total := st.total + 1, skipped := st.skipped + 1 } := by
  show (match processLayer2 cfg l st.results.length with
        | (some r, _) =>
          if r.layerType = "text" then
            ⟨st.results ++ [r], st.total + 1, st.exported + 1, st.textExported + 1,
             st.pixelExported, st.smartExported, st.otherExported, st.skipped⟩
          else if r.layerType = "smart_object" then
            ⟨st.results ++ [r], st.total + 1, st.exported + 1, st.textExported,
             st.pixelExported, st.smartExported + 1, st.otherExported, st.skipped⟩
          else if r.layerType = "pixel" then
            ⟨st.results ++ [r], st.total + 1, st.exported + 1, st.textExported,
             st.pixelExported + 1, st.smartExported, st.otherExported, st.skipped⟩
          else
            ⟨st.results ++ [r], st.total + 1, st.exported + 1, st.textExported,
             st.pixelExported, st.smartExported, st.otherExported + 1, st.skipped⟩
        | (none, _) => { st with total := st.total + 1, skipped := st.skipped + 1 }
        : RunState2) = _
  rcases processLayer2 cfg l st.results.length with ⟨_ | r, o⟩
  · rfl
  · rfl


theorem step2_inv (cfg : Config) :
    ∀ (st : RunState2) (l : Layer), Inv2 st → Inv2 (step2 cfg st l) := by
  intro st l hI
  obtain ⟨h2, h3⟩ := hI
  rw [step2_eq]
  rcases hp : (processLayer2 cfg l st.results.length).1 with _ | r
  · exact ⟨h2, h3⟩
  · obtain ⟨img, t, hc⟩ := processLayer2_fst_some hp
    have hidx : r.index = st.results.length := (create_ok_props hc).1
    have hexp : st.exported + 1 = (st.results ++ [r]).length := by simp [h2]
    have hget : ∀ k (hk : k < (st.results ++ [r]).length),
        ((st.results ++ [r]).get ⟨k, hk⟩).index = k := by
      intro k hk
      simp only [List.length_append, List.length_singleton] at hk
      by_cases hlt : k < st.results.length
      · rw [List.get_append _ hlt]
        exact h3 k hlt
      · have hkeq : k = st.results.length := by omega
        subst hkeq
        have : (st.results ++ [r]).get ⟨st.results.length, by simp⟩ = r := by simp
        rw [this, hidx]
    by_cases ht : r.layerType = "text"
    · simp only [ht]
      exact ⟨hexp, hget⟩
    · by_cases hs : r.layerType = "smart_object"
      · simp only [if_neg ht, hs]
        exact ⟨hexp, hget⟩
      · by_cases hx : r.layerType = "pixel"
        · simp only [if_neg ht, if_neg hs, hx]
          exact ⟨hexp, hget⟩
        · simp only [if_neg ht, if_neg hs, if_neg hx]
          exact ⟨hexp, hget⟩

/-- Density of export indices for a variant 2 run. -/
theorem dense2 (cfg : Config) (layers : List Layer) :
    (extract_all_layers2 cfg layers).exported =
      (extract_all_layers2 cfg layers).results.length ∧
    ∀ k (hk : k < (extract_all_layers2 cfg layers).results.length),
      ((extract_all_layers2 cfg layers).results.get ⟨k, hk⟩).index = k :=
  foldl_inv (step2 cfg) Inv2 (step2_inv cfg) layers _
    ⟨rfl, by intro k hk; simp at hk⟩

/-- With export_invisible = false, every record emitted by a variant 1
processing step reports visible = true. -/
theorem processLayer1_visible_true {cfg : Config} {l : Layer} {idx : Nat}
    {r : LayerRecord} (hcfg : cfg.exportInvisible = false)
    (h : (processLayer1 cfg l idx).1 = some r) : r.visible = true := by
  obtain ⟨img, t, hc⟩ := processLayer1_fst_some h
  have hv := (create_ok_props hc).2.2.1
  have hg := processLayer1_gate h
  rw [hcfg] at hg
  simp at hg
  rw [hv, hg]

/-- With export_invisible = false, every record emitted by a variant 2
processing step reports visible = true. -/
theorem processLayer2_visible_true {cfg : Config} {l : Layer} {idx : Nat}
    {r : LayerRecord} (hcfg : cfg.exportInvisible = false)
    (h : (processLayer2 cfg l idx).1 = some r) : r.visible = true := by
  obtain ⟨img, t, hc⟩ := processLayer2_fst_some h
  have hv := (create_ok_props hc).2.2.1
  have hg := processLayer2_gate h
  rw [hcfg] at hg
  simp at hg
  rw [hv, hg]

/-- With export_invisible = false, all records of a variant 1 run report
visible = true. -/
theorem extract1_visible_true {cfg : Config} (hcfg : cfg.exportInvisible = false)
    (layers : List Layer) :
    ∀ r ∈ (extract_all_layers1 cfg layers).results, r.visible = true := by
  refine foldl_inv (step1 cfg) (fun st => ∀ r ∈ st.results, r.visible = true)
    ?_ layers _ (by simp)
  intro st l hall
  rw [step1_eq]
  rcases hp : (processLayer1 cfg l st.layerIndex).1 with _ | r'
  · exact hall
  · intro r hr
    rcases List.mem_append.mp hr with hin | hnew
    · exact hall r hin
    · rw [List.mem_singleton.mp hnew]
      exact processLayer1_visible_true hcfg hp

/-- With export_invisible = false, all records of a variant 2 run report
visible = true. -/
theorem extract2_visible_true {cfg : Config} (hcfg : cfg.exportInvisible = false)
    (layers : List Layer) :
    ∀ r ∈ (extract_all_layers2 cfg layers).results, r.visible = true := by
  refine foldl_inv (step2 cfg) (fun st => ∀ r ∈ st.results, r.visible = true)
    ?_ layers _ (by simp)
  intro st l hall
  rw [step2_eq]
  rcases hp : (processLayer2 cfg l st.results.length).1 with _ | r'
  · exact hall
  · have hone : ∀ r ∈ st.results ++ [r'], r.visible = true := by
      intro r hr
      rcases List.mem_append.mp hr with hin | hnew
      · exact hall r hin
      · rw [List.mem_singleton.mp hnew]
        exact processLayer2_visible_true hcfg hp
    by_cases ht : r'.layerType = "text"
    · simpa only [ht, if_pos] using hone
    · by_cases hs : r'.layerType = "smart_object"
      · simpa only [if_neg ht, hs, if_pos] using hone
      · by_cases hx : r'.layerType = "pixel"
        · simpa only [if_neg ht, if_neg hs, hx, if_pos] using hone
        · simpa only [if_neg ht, if_neg hs, if_neg hx] using hone

/-- Decimal digit characters are not in the illegal-character class. -/
theorem digitChar_legal : ∀ d : Fin 10, illegalChar (Nat.digitChar d.val) = false := by
  decide

/-- Decimal digit characters of distinct digits are distinct. -/
theorem digitChar_inj10 : ∀ a b : Fin 10,
    Nat.digitChar a.val = Nat.digitChar b.val → a = b := by
  decide

/-- A three-digit index renders as its three decimal digit characters. -/
theorem pad3_lt {n : Nat} (h : n < 1000) :
    (pad3 n).data =
      [Nat.digitChar (n / 100), Nat.digitChar (n / 10 % 10), Nat.digitChar (n % 10)] := by
  rw [pad3, if_pos h]

/-- Zero-padded rendering is injective on three-digit indices. -/
theorem pad3_inj {i j : Nat} (hi : i < 1000) (hj : j < 1000)
    (h : pad3 i = pad3 j) : i = j := by
  have hd : (pad3 i).data = (pad3 j).data := by rw [h]
  rw [pad3_lt hi, pad3_lt hj] at hd
  simp only [List.cons.injEq, and_true] at hd
  obtain ⟨h1, h2, h3⟩ := hd
  have e1 := digitChar_inj10 ⟨i / 100, by omega⟩ ⟨j / 100, by omega⟩ h1
  have e2 := digitChar_inj10 ⟨i / 10 % 10, by omega⟩ ⟨j / 10 % 10, by omega⟩ h2
  have e3 := digitChar_inj10 ⟨i % 10, by omega⟩ ⟨j % 10, by omega⟩ h3
  have v1 : i / 100 = j / 100 := congrArg Fin.val e1
  have v2 : i / 10 % 10 = j / 10 % 10 := congrArg Fin.val e2
  have v3 : i % 10 = j % 10 := congrArg Fin.val e3
  omega

/-- Membership survives the two-sided strip. -/
theorem mem_stripBy {p : Char → Bool} {cs : List Char} {c : Char}
    (h : c ∈ stripBy p cs) : c ∈ cs := by
  unfold stripBy at h
  rw [List.mem_reverse] at h
  have h1 := (List.dropWhile_sublist p).mem h
  rw [List.mem_reverse] at h1
  exact (List.dropWhile_sublist p).mem h1

/-- Every character of a sanitized name is outside the illegal class. -/
theorem sanitize_legal (name : String) :
    ∀ c ∈ (sanitize_filename name).data, illegalChar c = false := by
  intro c hc
  unfold sanitize_filename at hc
  simp only [String.data] at hc
  have h1 : c ∈ stripBy (fun c => c = '.')
      (stripBy pyWhitespace (name.data.map (fun c => if illegalChar c then '_' else c))) :=
    (List.take_sublist 50 _).mem hc
  have h2 := mem_stripBy (mem_stripBy h1)
  obtain ⟨c0, _, hmap⟩ := List.mem_map.mp h2
  by_cases hill : illegalChar c0
  · rw [if_pos hill] at hmap
    rw [← hmap]
    decide
  · rw [if_neg hill] at hmap
    rw [← hmap]
    simpa using hill

/-- Strings with equal character data are equal. -/
theorem stringData_ext {s t : String} (h : s.data = t.data) : s = t := by
  cases s
  cases t
  exact congrArg String.mk h

/-- Character data of a generated filename. -/
theorem layerFilename_data (index : Nat) (cleanName : String) :
    (layerFilename index cleanName).data =
      (pad3 index).data ++ '_' :: (cleanName.data ++ ['.', 'p', 'n', 'g']) := by
  unfold layerFilename
  simp [String.data_append]

/-- No character of a generated filename lies in the illegal class when
the name part is sanitized. -/
theorem layerFilename_legal {index : Nat} (hidx : index < 1000) (name : String) :
    ∀ c ∈ (layerFilename index (sanitize_filename name)).data, illegalChar c = false := by
  intro c hc
  rw [layerFilename_data, pad3_lt hidx] at hc
  simp only [List.mem_append, List.mem_cons, List.mem_singleton] at hc
  rcases hc with h | h | h
  · rcases h with h | h | h | h
    · rw [h]; exact digitChar_legal ⟨index / 100, by omega⟩
    · rw [h]; exact digitChar_legal ⟨index / 10 % 10, by omega⟩
    · rw [h]; exact digitChar_legal ⟨index % 10, by omega⟩
    · simp at h
  · rw [h]; decide
  · rcases h with h | h | h | h | h | h
    · exact sanitize_legal name c h
    all_goals first
      | (rw [h]; decide)
      | simp at h

/-- Generated filenames with the same cleaned name and distinct
three-digit indices are distinct. -/
theorem layerFilename_inj {i j : Nat} (hi : i < 1000) (hj : j < 1000)
    (s : String) (hne : i ≠ j) : layerFilename i s ≠ layerFilename j s := by
  intro h
  have hd : (layerFilename i s).data = (layerFilename j s).data := by rw [h]
  rw [layerFilename_data, layerFilename_data] at hd
  have hlen : (pad3 i).data.length = (pad3 j).data.length := by
    rw [pad3_lt hi, pad3_lt hj]
    rfl
  obtain ⟨hpad, -⟩ := List.append_inj hd hlen
  exact hne (pad3_inj hi hj (stringData_ext hpad))

/-- An error outcome of a variant 1 step comes with no record. -/
theorem processLayer1_err {cfg : Config} {l : Layer} {idx : Nat} {e : String}
    (h : (processLayer1 cfg l idx).2 = Outcome1.errCaught e) :
    (processLayer1 cfg l idx).1 = none := by
  revert h
  unfold processLayer1
  repeat' split
  all_goals intro h
  all_goals first
    | rfl
    | simp at h

/-- An error outcome of a variant 2 step comes with no record. -/
theorem processLayer2_err {cfg : Config} {l : Layer} {idx : Nat} {e : String}
    (h : (processLayer2 cfg l idx).2 = Outcome2.errCaught e) :
    (processLayer2 cfg l idx).1 = none := by
  revert h
  unfold processLayer2
  repeat' split
  all_goals intro h
  all_goals first
    | rfl
    | simp at h

/-- Every record of a variant 1 run satisfies a property that holds of
every successfully created record. -/
theorem extract1_mem {Q : LayerRecord → Prop}
    (hQ : ∀ (l : Layer) (idx : Nat) (img : PILImage) (t : String) (r : LayerRecord),
            create_layer_result l idx img t = Except.ok r → Q r)
    (cfg : Config) (layers : List Layer) :
    ∀ r ∈ (extract_all_layers1 cfg layers).results, Q r := by
  refine foldl_inv (step1 cfg) (fun st => ∀ r ∈ st.results, Q r) ?_ layers _ (by simp)
  intro st l hall
  rw [step1_eq]
  rcases hp : (processLayer1 cfg l st.layerIndex).1 with _ | r'
  · exact hall
  · intro r hr
    rcases List.mem_append.mp hr with hin | hnew
    · exact hall r hin
    · obtain ⟨img, t, hc⟩ := processLayer1_fst_some hp
      rw [List.mem_singleton.mp hnew]
      exact hQ _ _ _ _ _ hc

/-- Every record of a variant 2 run satisfies a property that holds of
every successfully created record. -/
theorem extract2_mem {Q : LayerRecord → Prop}
    (hQ : ∀ (l : Layer) (idx : Nat) (img : PILImage) (t : String) (r : LayerRecord),
            create_layer_result l idx img t = Except.ok r → Q r)
    (cfg : Config) (layers : List Layer) :
    ∀ r ∈ (extract_all_layers2 cfg layers).results, Q r := by
  refine foldl_inv (step2 cfg) (fun st => ∀ r ∈ st.results, Q r) ?_ layers _ (by simp)
  intro st l hall
  rw [step2_eq]
  rcases hp : (processLayer2 cfg l st.results.length).1 with _ | r'
  · exact hall
  · have hone : ∀ r ∈ st.results ++ [r'], Q r := by
      intro r hr
      rcases List.mem_append.mp hr with hin | hnew
      · exact hall r hin
      · obtain ⟨img, t, hc⟩ := processLayer2_fst_some hp
        rw [List.mem_singleton.mp hnew]
        exact hQ _ _ _ _ _ hc
    by_cases ht : r'.layerType = "text"
    · simpa only [ht, if_pos] using hone
    · by_cases hs : r'.layerType = "smart_object"
      · simpa only [if_neg ht, hs, if_pos] using hone
      · by_cases hx : r'.layerType = "pixel"
        · simpa only [if_neg ht, if_neg hs, hx, if_pos] using hone
        · simpa only [if_neg ht, if_neg hs, if_neg hx] using hone

/-- A visible smart-object layer under expand_smart_objects = true is
dispatched by variant 1 to its dedicated not-supported outcome. -/
theorem processLayer1_smart_expand {cfg : Config} {l : Layer} (idx : Nat)
    (hv : effVisible l = true) (ht : getLayerType l = "smart_object")
    (he : cfg.expandSmartObjects = true) :
    processLayer1 cfg l idx = (none, Outcome1.smartNotSupported) := by
  unfold processLayer1
  rw [if_neg (by simp [hv]), if_neg (by rw [ht]; decide), if_pos ht, if_pos he]

/-- A visible smart-object layer under expand_smart_objects = true is
dispatched by variant 2 to the generic skip outcome. -/
theorem processLayer2_smart_expand {cfg : Config} {l : Layer} (idx : Nat)
    (hv : effVisible l = true) (ht : getLayerType l = "smart_object")
    (he : cfg.expandSmartObjects = true) :
    processLayer2 cfg l idx = (none, Outcome2.skipGeneric) := by
  unfold processLayer2
  rw [if_neg (by simp [hv]), if_neg (by rw [ht]; decide), if_pos ht, he]
  rfl

/-- A visible smart-object layer under expand_smart_objects = false whose
composite rasterizes is exported by variant 1. -/
theorem processLayer1_smart_export {cfg : Config} {l : Layer} (idx : Nat)
    {img : PILImage} {bb : BBox}
    (hv : effVisible l = true) (ht : getLayerType l = "smart_object")
    (he : cfg.expandSmartObjects = false)
    (hi : l.topil = Except.ok (some img)) (hb : l.bboxRes = Except.ok bb) :
    processLayer1 cfg l idx =
      (some (buildRecord l idx img "smart_object" bb), Outcome1.okSmart) := by
  unfold processLayer1
  rw [if_neg (by simp [hv]), if_neg (by rw [ht]; decide), if_pos ht, if_neg (by simp [he])]
  have hexp : export_layer_image l = some img := by
    unfold export_layer_image
    rw [hi]
  rw [hexp]
  unfold create_layer_result
  rw [hb]

/-- A visible smart-object layer under expand_smart_objects = false whose
composite rasterizes is exported by variant 2. -/
theorem processLayer2_smart_export {cfg : Config} {l : Layer} (idx : Nat)
    {img : PILImage} {bb : BBox}
    (hv : effVisible l = true) (ht : getLayerType l = "smart_object")
    (he : cfg.expandSmartObjects = false)
    (hi : l.topil = Except.ok (some img)) (hb : l.bboxRes = Except.ok bb) :
    processLayer2 cfg l idx =
      (some (buildRecord l idx img "smart_object" bb), Outcome2.exported "smart_object") := by
  unfold processLayer2
  rw [if_neg (by simp [hv]), if_neg (by rw [ht]; decide), if_pos ht, if_pos (by simp [he])]
  have hexp : export_layer_image l = some img := by
    unfold export_layer_image
    rw [hi]
  rw [hexp]
  unfold create_layer_result
  rw [hb]

/-- Default run configuration: invisible layers excluded, smart objects
not expanded. -/
def cfg00 : Config := ⟨false, false⟩

/-- Configuration asking for smart-object expansion. -/
def cfgExpand : Config := ⟨false, true⟩

/-- A benign in-memory RGBA image. -/
def okImage : PILImage := ⟨"RGBA", false, false⟩

/-- An RGBA image whose save(...) call raises an I/O error. -/
def saveFailImage : PILImage := ⟨"RGBA", false, true⟩

/-- A hidden pixel layer that would rasterize fine. -/
def hiddenPixelLayer : Layer :=
  { name := some "bg", isVisible := some false, kind := some "pixel",
    smartObject := false, hasPixels := true, text := none,
    topil := Except.ok (some okImage), bboxRes := Except.ok ⟨0, 0, 100, 100⟩,
    opacity := some 100, blendMode := some "normal" }

/-- A visible text layer with content Hello whose rasterization yields an
image. -/
def textHelloLayer : Layer :=
  { name := some "hello", isVisible := some true, kind := some "type",
    smartObject := false, hasPixels := false, text := some "Hello",
    topil := Except.ok (some okImage), bboxRes := Except.ok ⟨10, 20, 110, 70⟩,
    opacity := some 100, blendMode := some "normal" }

/-- A visible adjustment layer; like a real adjustment layer it carries
no independent raster content, so its topil() returns None. -/
def adjustmentLayer : Layer :=
  { name := some "adj", isVisible := some true, kind := some "adjustment",
    smartObject := false, hasPixels := false, text := none,
    topil := Except.ok none, bboxRes := Except.ok ⟨0, 0, 5, 5⟩,
    opacity := some 100, blendMode := some "normal" }

/-- A visible adjustment layer whose topil() happens to return an image,
used to probe the missing adjustment branch of variant 2. -/
def adjustmentLayerWithImage : Layer :=
  { name := some "adj2", isVisible := some true, kind := some "adjustment",
    smartObject := false, hasPixels := false, text := none,
    topil := Except.ok (some okImage), bboxRes := Except.ok ⟨0, 0, 5, 5⟩,
    opacity := some 100, blendMode := some "normal" }

/-- A visible smart-object layer whose composite rasterizes fine. -/
def smartLayer : Layer :=
  { name := some "logo", isVisible := some true, kind := some "smartobject",
    smartObject := true, hasPixels := true, text := none,
    topil := Except.ok (some okImage), bboxRes := Except.ok ⟨0, 0, 50, 40⟩,
    opacity := some 100, blendMode := some "normal" }

/-- A visible pixel layer whose rasterization returns no image. -/
def failPixelLayer : Layer :=
  { name := some "broken", isVisible := some true, kind := some "pixel",
    smartObject := false, hasPixels := true, text := none,
    topil := Except.ok none, bboxRes := Except.ok ⟨0, 0, 10, 10⟩,
    opacity := some 100, blendMode := some "normal" }

/-- A visible pixel layer whose image save raises an I/O error. -/
def savePixelLayer : Layer :=
  { name := some "diskfull", isVisible := some true, kind := some "pixel",
    smartObject := false, hasPixels := true, text := none,
    topil := Except.ok (some saveFailImage), bboxRes := Except.ok ⟨0, 0, 10, 10⟩,
    opacity := some 100, blendMode := some "normal" }

/-- A visible pixel layer whose name sanitizes to the empty string. -/
def dotNameLayer : Layer :=
  { name := some ".", isVisible := some true, kind := some "pixel",
    smartObject := false, hasPixels := true, text := none,
    topil := Except.ok (some okImage), bboxRes := Except.ok ⟨0, 0, 10, 10⟩,
    opacity := some 100, blendMode := some "normal" }

/-- The document of the three-layer scenario: a hidden pixel layer, a
visible text layer with content Hello, and an adjustment layer. -/
def scenarioLayers : List Layer := [hiddenPixelLayer, textHelloLayer, adjustmentLayer]

/-- The name-cleaning rule exactly as the claim words it, for comparison
with the sanitizer embedded from the source: the illegal characters are
stripped (removed), leading and trailing whitespace and trailing dots are
trimmed, and the result is truncated to 50 characters. -/
def claimCleanedName (name : String) : String :=
  let removed := name.data.filter (fun c => !illegalChar c)
  let ws := stripBy pyWhitespace removed
  let trimmed := (ws.reverse.dropWhile (fun c => c = '.')).reverse
  String.mk (trimmed.take 50)

/-- C1: in every run of either extract_all_layers variant the export
indices of the emitted records are exactly 0..N-1 with no gaps or
repeats, assigned in traversal order among exported layers only: the
record at position i of the result sequence carries index i, and N
equals the exported count. -/
theorem spec_C1 (cfg : Config) (layers : List Layer) :
    ((extract_all_layers1 cfg layers).exported =
       (extract_all_layers1 cfg layers).results.length ∧
     ∀ i (hi : i < (extract_all_layers1 cfg layers).results.length),
       ((extract_all_layers1 cfg layers).results.get ⟨i, hi⟩).index = i) ∧
    ((extract_all_layers2 cfg layers).exported =
       (extract_all_layers2 cfg layers).results.length ∧
     ∀ i (hi : i < (extract_all_layers2 cfg layers).results.length),
       ((extract_all_layers2 cfg layers).results.get ⟨i, hi⟩).index = i) :=
  ⟨⟨(dense1 cfg layers).2.1, (dense1 cfg layers).2.2⟩, dense2 cfg layers⟩

/-- Witness for C1: in the concrete three-layer scenario run the record
at position 0 carries export index 0. -/
theorem spec_C1_witness :
    ((extract_all_layers1 cfg00 scenarioLayers).results.get ⟨0, by decide⟩).index = 0 :=
  (spec_C1 cfg00 scenarioLayers).1.2 0 (by decide)

/-- C3: classification is a total deterministic function into the five
kind strings, evaluated first-match-wins with priority text over
smart_object over adjustment over pixel over other: a text layer always
classifies text, a non-text smart object classifies smart_object even
when it also has pixel data, and a layer matching no predicate
classifies other. -/
theorem spec_C3 (l : Layer) :
    (getLayerType l = "text" ∨ getLayerType l = "smart_object" ∨
     getLayerType l = "adjustment" ∨ getLayerType l = "pixel" ∨
     getLayerType l = "other") ∧
    getLayerType l = getLayerType l ∧
    (l.kind = some "type" → getLayerType l = "text") ∧
    (l.kind ≠ some "type" → l.smartObject = true → getLayerType l = "smart_object") ∧
    (l.kind ≠ some "type" → l.smartObject = true → l.hasPixels = true →
       getLayerType l = "smart_object") ∧
    (l.kind ≠ some "type" → l.smartObject = false → kindAdjustment l = true →
       getLayerType l = "adjustment") ∧
    (l.kind ≠ some "type" → l.smartObject = false → kindAdjustment l = false →
       l.hasPixels = true → getLayerType l = "pixel") ∧
    (l.kind ≠ some "type" → l.smartObject = false → kindAdjustment l = false →
       l.hasPixels = false → getLayerType l = "other") := by
  refine ⟨?_, rfl, ?_, ?_, ?_, ?_, ?_, ?_⟩
  · unfold getLayerType
    split_ifs <;> simp
  · intro h
    simp [getLayerType, h]
  · intro h hs
    simp [getLayerType, h, hs]
  · intro h hs _
    simp [getLayerType, h, hs]
  · intro h hs ha
    simp [getLayerType, h, hs, ha]
  · intro h hs ha hp
    simp [getLayerType, h, hs, ha, hp]
  · intro h hs ha hp
    simp [getLayerType, h, hs, ha, hp]

/-- Witness for C3: a concrete layer that is both a smart object and has
pixel data classifies as smart_object. -/
theorem spec_C3_witness : getLayerType smartLayer = "smart_object" :=
  (spec_C3 smartLayer).2.2.2.2.1 (by decide) (by decide) (by decide)

/-- C4, divergence evidence: a visible adjustment layer whose topil()
returns an image is skipped by variant 1 with the dedicated adjustment
outcome, but variant 2, which has no adjustment branch in its dispatch,
rasterizes it in the final else branch and exports it as 'other'. -/
theorem spec_C4_divergence :
    getLayerType adjustmentLayerWithImage = "adjustment" ∧
    processLayer1 cfg00 adjustmentLayerWithImage 0 = (none, Outcome1.skipAdjustment) ∧
    (extract_all_layers1 cfg00 [adjustmentLayerWithImage]).exported = 0 ∧
    (extract_all_layers1 cfg00 [adjustmentLayerWithImage]).skipped = 1 ∧
    (extract_all_layers2 cfg00 [adjustmentLayerWithImage]).exported = 1 ∧
    (extract_all_layers2 cfg00 [adjustmentLayerWithImage]).skipped = 0 ∧
    (extract_all_layers2 cfg00 [adjustmentLayerWithImage]).results.map
        (fun r => r.layerType) = ["other"] := by
  decide

/-- C10: on a document of three layers, a hidden pixel layer, a visible
text layer with content Hello that rasterizes to an image, and an
adjustment layer, a run excluding invisible layers yields exactly one
record with export index 0 and kind text, and statistics total 3,
exported 1, skipped 2, in both variants. -/
theorem spec_C10 :
    scenarioLayers.length = 3 ∧
    (extract_all_layers1 cfg00 scenarioLayers).results.map
        (fun r => (r.index, r.layerType)) = [(0, "text")] ∧
    (extract_all_layers1 cfg00 scenarioLayers).exported = 1 ∧
    (extract_all_layers1 cfg00 scenarioLayers).skipped = 2 ∧
    (extract_all_layers2 cfg00 scenarioLayers).total = 3 ∧
    (extract_all_layers2 cfg00 scenarioLayers).exported = 1 ∧
    (extract_all_layers2 cfg00 scenarioLayers).skipped = 2 ∧
    (extract_all_layers2 cfg00 scenarioLayers).results.map
        (fun r => (r.index, r.layerType)) = [(0, "text")] := by
  decide

/-- C6: with export_invisible disabled an invisible layer is dispatched
straight to the invisible skip in both variants, contributing exactly one
skip and nothing else, and no emitted record has visible = false; any
layer exported while invisible (export_invisible enabled) appears with
visible = false; export indices stay dense regardless. -/
theorem spec_C6 (cfg : Config) (l : Layer) (idx : Nat) (st : RunState1)
    (layers : List Layer) :
    (cfg.exportInvisible = false → effVisible l = false →
       processLayer1 cfg l idx = (none, Outcome1.skipInvisible) ∧
       processLayer2 cfg l idx = (none, Outcome2.skipInvisible) ∧
       step1 cfg st l = { st with skipped := st.skipped + 1 }) ∧
    (cfg.exportInvisible = false →
       (∀ r ∈ (extract_all_layers1 cfg layers).results, r.visible = true) ∧
       (∀ r ∈ (extract_all_layers2 cfg layers).results, r.visible = true)) ∧
    (effVisible l = false →
       (∀ r, (processLayer1 cfg l idx).1 = some r → r.visible = false) ∧
       (∀ r, (processLayer2 cfg l idx).1 = some r → r.visible = false)) ∧
    (∀ i (hi : i < (extract_all_layers1 cfg layers).results.length),
       ((extract_all_layers1 cfg layers).results.get ⟨i, hi⟩).index = i) := by
  refine ⟨?_, ?_, ?_, (dense1 cfg layers).2.2⟩
  · intro h1 h2
    refine ⟨processLayer1_invisible idx h1 h2, processLayer2_invisible idx h1 h2, ?_⟩
    rw [step1_eq, processLayer1_invisible st.layerIndex h1 h2]
  · intro h1
    exact ⟨extract1_visible_true h1 layers, extract2_visible_true h1 layers⟩
  · intro h2
    constructor
    · intro r hr
      obtain ⟨img, t, hc⟩ := processLayer1_fst_some hr
      rw [(create_ok_props hc).2.2.1, h2]
    · intro r hr
      obtain ⟨img, t, hc⟩ := processLayer2_fst_some hr
      rw [(create_ok_props hc).2.2.1, h2]

/-- Witness for C6: the concrete hidden pixel layer is dispatched to the
invisible skip under the default configuration. -/
theorem spec_C6_witness :
    processLayer1 cfg00 hiddenPixelLayer 0 = (none, Outcome1.skipInvisible) :=
  ((spec_C6 cfg00 hiddenPixelLayer 0 ⟨[], 0, 0, 0⟩ []).1 rfl (by decide)).1

/-- C7: every record built by _create_layer_result takes x and y
unchanged from the native rectangle and clamps width and height with
max(..., 1), so both are at least 1; consequently every record of either
pipeline run satisfies width at least 1 and height at least 1. -/
theorem spec_C7 (l : Layer) (idx : Nat) (img : PILImage) (t : String) (bb : BBox)
    (cfg : Config) (layers : List Layer) :
    (l.bboxRes = Except.ok bb →
       ∃ r, create_layer_result l idx img t = Except.ok r ∧
         r.x = bb.left ∧ r.y = bb.top ∧
         r.width = max (bb.right - bb.left) 1 ∧
         r.height = max (bb.bottom - bb.top) 1 ∧
         (1 : Int) ≤ r.width ∧ (1 : Int) ≤ r.height) ∧
    (∀ r ∈ (extract_all_layers1 cfg layers).results,
       (1 : Int) ≤ r.width ∧ (1 : Int) ≤ r.height) ∧
    (∀ r ∈ (extract_all_layers2 cfg layers).results,
       (1 : Int) ≤ r.width ∧ (1 : Int) ≤ r.height) := by
  refine ⟨?_, ?_, ?_⟩
  · intro hb
    refine ⟨buildRecord l idx img t bb, ?_, rfl, rfl, rfl, rfl,
            le_max_right _ _, le_max_right _ _⟩
    unfold create_layer_result
    rw [hb]
  · exact extract1_mem
      (fun l idx img t r hc =>
        ⟨(create_ok_props hc).2.2.2.1, (create_ok_props hc).2.2.2.2⟩) cfg layers
  · exact extract2_mem
      (fun l idx img t r hc =>
        ⟨(create_ok_props hc).2.2.2.1, (create_ok_props hc).2.2.2.2⟩) cfg layers

/-- Witness for C7: record creation on a degenerate zero-extent bounding
box still produces a record with width and height 1. -/
theorem spec_C7_witness :
    ∃ r, create_layer_result dotNameLayer 0 okImage "pixel" = Except.ok r ∧
      r.x = 0 ∧ r.y = 0 ∧
      r.width = max (10 - 0) 1 ∧ r.height = max (10 - 0) 1 ∧
      (1 : Int) ≤ r.width ∧ (1 : Int) ≤ r.height :=
  (spec_C7 dotNameLayer 0 okImage "pixel" ⟨0, 0, 10, 10⟩ cfg00 []).1 rfl

/-- C2, counterexample to the claim as stated: a visible pixel layer
whose image save raises is not counted as skipped; the inner try of
_create_layer_result catches the error and the layer still counts as
exported, its record kept with savedOk false. -/
theorem spec_C2_cex :
    (extract_all_layers1 cfg00 [savePixelLayer]).exported = 1 ∧
    (extract_all_layers1 cfg00 [savePixelLayer]).skipped = 0 ∧
    (extract_all_layers1 cfg00 [savePixelLayer]).results.map
        (fun r => r.savedOk) = [false] := by
  decide

/-- C2 amended: every error raised inside the per-layer try block
(classification, rasterization, record creation) is caught and converted
to exactly one skip, a processing step that yields no record likewise
adds one skip and leaves everything else unchanged, the run is the fold
of the per-layer step so processing always continues with the subsequent
layers, and an error while saving the image is caught inside record
creation with the layer still exported and its record kept. -/
theorem spec_C2_amended (cfg : Config) (st : RunState1) (st2 : RunState2)
    (l : Layer) (pre post : List Layer) (e : String) (idx : Nat) (bb : BBox)
    (img : PILImage) (t : String) :
    ((processLayer1 cfg l st.layerIndex).2 = Outcome1.errCaught e →
       step1 cfg st l = { st with skipped := st.skipped + 1 }) ∧
    ((processLayer1 cfg l st.layerIndex).1 = none →
       step1 cfg st l = { st with skipped := st.skipped + 1 }) ∧
    ((processLayer2 cfg l st2.results.length).2 = Outcome2.errCaught e →
       step2 cfg st2 l = { st2 with total := st2.total + 1, skipped := st2.skipped + 1 }) ∧
    (extract_all_layers1 cfg (pre ++ l :: post) =
       post.foldl (step1 cfg) (step1 cfg (extract_all_layers1 cfg pre) l)) ∧
    (l.bboxRes = Except.ok bb →
       create_layer_result l idx img t = Except.ok (buildRecord l idx img t bb)) ∧
    (l.bboxRes = Except.ok bb → img.saveRaises = true →
       ∃ r, create_layer_result l idx img t = Except.ok r ∧ r.savedOk = false) := by
  refine ⟨?_, ?_, ?_, ?_, ?_, ?_⟩
  · intro h
    rw [step1_eq, processLayer1_err h]
  · intro h
    rw [step1_eq, h]
  · intro h
    rw [step2_eq, processLayer2_err h]
  · unfold extract_all_layers1
    rw [List.foldl_append, List.foldl_cons]
  · intro hb
    unfold create_layer_result
    rw [hb]
  · intro hb hs
    refine ⟨buildRecord l idx img t bb, by unfold create_layer_result; rw [hb], ?_⟩
    show (if img.mode ≠ "RGBA"
          then !img.convertRaises && !img.saveRaises
          else !img.saveRaises) = false
    rw [hs]
    split <;> simp

/-- Witness for C2 amended: a step on the concrete layer whose
rasterization yields no image adds exactly one skip. -/
theorem spec_C2_witness :
    step1 cfg00 ⟨[], 0, 0, 0⟩ failPixelLayer = ⟨[], 0, 1, 0⟩ :=
  (spec_C2_amended cfg00 ⟨[], 0, 0, 0⟩ ⟨[], 0, 0, 0, 0, 0, 0, 0⟩ failPixelLayer
    [] [] "" 0 ⟨0, 0, 0, 0⟩ okImage "t").2.1 (by decide)

/-- C5, counterexample to the claim as stated: in the enhanced variant a
visible smart-object layer under expand_smart_objects = true is skipped
with exactly the same generic skip outcome as an ordinary layer whose
rasterization fails, not with a distinct informational outcome. -/
theorem spec_C5_cex :
    getLayerType smartLayer = "smart_object" ∧
    getLayerType failPixelLayer = "pixel" ∧
    processLayer2 cfgExpand smartLayer 0 = (none, Outcome2.skipGeneric) ∧
    processLayer2 cfgExpand failPixelLayer 0 = (none, Outcome2.skipGeneric) := by
  decide

/-- C5 amended: for a visible smart-object layer, with expansion
configured the basic variant skips it with its dedicated not-supported
outcome, distinct from every other outcome, while the enhanced variant
skips it with the generic skip outcome; without expansion both variants
rasterize the composite and export it when an image and bounding box are
available. -/
theorem spec_C5_amended (cfg : Config) (l : Layer) (idx : Nat)
    (hv : effVisible l = true) (ht : getLayerType l = "smart_object") :
    (cfg.expandSmartObjects = true →
       processLayer1 cfg l idx = (none, Outcome1.smartNotSupported) ∧
       processLayer2 cfg l idx = (none, Outcome2.skipGeneric)) ∧
    (cfg.expandSmartObjects = false →
       ∀ (img : PILImage) (bb : BBox),
         l.topil = Except.ok (some img) → l.bboxRes = Except.ok bb →
         processLayer1 cfg l idx =
           (some (buildRecord l idx img "smart_object" bb), Outcome1.okSmart) ∧
         processLayer2 cfg l idx =
           (some (buildRecord l idx img "smart_object" bb),
            Outcome2.exported "smart_object")) ∧
    (Outcome1.smartNotSupported ≠ Outcome1.skipInvisible ∧
     Outcome1.smartNotSupported ≠ Outcome1.skipTextRaster ∧
     Outcome1.smartNotSupported ≠ Outcome1.skipSmart ∧
     Outcome1.smartNotSupported ≠ Outcome1.skipAdjustment ∧
     Outcome1.smartNotSupported ≠ Outcome1.skipPixel ∧
     Outcome1.smartNotSupported ≠ Outcome1.skipOther ∧
     ∀ e2, Outcome1.smartNotSupported ≠ Outcome1.errCaught e2) := by
  refine ⟨?_, ?_, ?_⟩
  · intro he
    exact ⟨processLayer1_smart_expand idx hv ht he,
           processLayer2_smart_expand idx hv ht he⟩
  · intro he img bb hi hb
    exact ⟨processLayer1_smart_export idx hv ht he hi hb,
           processLayer2_smart_export idx hv ht he hi hb⟩
  · refine ⟨by decide, by decide, by decide, by decide, by decide, by decide, ?_⟩
    intro e2 h
    exact Outcome1.noConfusion h

/-- Witness for C5 amended: the concrete smart-object layer under the
expand configuration receives the dedicated not-supported outcome in the
basic variant. -/
theorem spec_C5_witness :
    processLayer1 cfgExpand smartLayer 0 = (none, Outcome1.smartNotSupported) :=
  ((spec_C5_amended cfgExpand smartLayer 0 (by decide) (by decide)).1 rfl).1

/-- C8, counterexample to the claim as stated: the sanitizer replaces
each illegal character with an underscore instead of stripping it, and
it trims leading dots too, so the cleaned form of a name with illegal
characters differs from the claim-worded cleaning. -/
theorem spec_C8_cex :
    sanitize_filename "a/b:c*.png" = "a_b_c_.png" ∧
    claimCleanedName "a/b:c*.png" = "abc.png" ∧
    sanitize_filename "a/b:c*.png" ≠ claimCleanedName "a/b:c*.png" ∧
    sanitize_filename "..a" = "a" ∧
    claimCleanedName "..a" = "..a" ∧
    layerFilename 7 (sanitize_filename "a/b:c*.png") = "007_a_b_c_.png.png" := by
  decide

/-- C8 amended: every record filename is the zero-padded three-digit
export index, an underscore, the cleaned name and the png suffix, where
cleaning replaces each character of the illegal class with an underscore,
trims leading and trailing whitespace and leading and trailing dots, and
truncates to 50 characters; the resulting filename contains no character
of the illegal class, and two exported layers with the same raw name and
distinct three-digit indices receive distinct filenames. -/
theorem spec_C8_amended (l : Layer) (idx i j : Nat) (img : PILImage)
    (t : String) (s name : String) :
    (∀ r, create_layer_result l idx img t = Except.ok r →
       r.filename =
         layerFilename idx (sanitize_filename (l.name.getD ("layer_" ++ toString idx)))) ∧
    (idx < 1000 → ∀ c ∈ (layerFilename idx (sanitize_filename name)).data,
       illegalChar c = false) ∧
    (i < 1000 → j < 1000 → i ≠ j →
       layerFilename i s ≠ layerFilename j s) := by
  refine ⟨?_, ?_, ?_⟩
  · intro r hc
    obtain ⟨bb, -, rfl⟩ := create_layer_result_ok hc
    rfl
  · intro hidx
    exact layerFilename_legal hidx name
  · intro hi hj hne
    exact layerFilename_inj hi hj s hne

/-- Witness for C8 amended: two concrete filenames generated from the
same raw name at indices 7 and 8 are distinct. -/
theorem spec_C8_witness :
    layerFilename 7 (sanitize_filename "a/b:c*.png") ≠
      layerFilename 8 (sanitize_filename "a/b:c*.png") :=
  (spec_C8_amended textHelloLayer 7 7 8 okImage "t"
      (sanitize_filename "a/b:c*.png") "x").2.2 (by decide) (by decide) (by decide)

/-- C9, counterexample to the claim as stated: a raw name whose cleaned
form is empty gets no placeholder; the sanitizer returns the empty
string and the generated filename has an empty name part. -/
theorem spec_C9_cex :
    sanitize_filename "." = "" ∧
    layerFilename 0 (sanitize_filename ".") = "000_.png" ∧
    (extract_all_layers1 cfg00 [dotNameLayer]).results.map
        (fun r => r.filename) = ["000_.png"] := by
  decide

/-- C9 amended: when the cleaned name is empty no fallback happens; the
filename degenerates to the zero-padded index, an underscore and the png
suffix with an empty name part, still unique thanks to the index
prefix. -/
theorem spec_C9_amended (idx : Nat) (name : String)
    (h : sanitize_filename name = "") :
    layerFilename idx (sanitize_filename name) = pad3 idx ++ "_.png" := by
  rw [h]
  apply stringData_ext
  simp [layerFilename, String.data_append]

/-- Witness for C9 amended: the filename of the layer named with a
single dot at index 0. -/
theorem spec_C9_witness :
    layerFilename 0 (sanitize_filename ".") = pad3 0 ++ "_.png" :=
  spec_C9_amended 0 "." (by decide)
